import Mathlib

set_option maxRecDepth 8192

/-
Verification of the PCA / clustering / linked-selection pipeline of
src/high_dimensional_analysis/pca_clustering_visual_analytics.py.

Shallow embedding conventions:
- Numeric cell values are rationals (ℚ); the floating-point NaN / missing-value
  cases are outside the embedding.
- pandas DataFrames are lists of rows over a tagged cell type, with a stored
  dtype per column (pandas stores dtypes per column).
- numpy / pandas / bokeh library calls used by the script are modelled by
  executable Lean functions that follow the documented library semantics
  (np.histogram, np.unique, Series.value_counts, DataFrame.value_counts,
  MultiIndex membership, tuple indexing, zip-with-a-string, ...).
- Python exceptions are modelled with Option / Except; a Python global mutated
  before an exception escapes is modelled by returning the mutated state next
  to the error.
-/

namespace PcaApp

/-- A pandas cell value: a number, a string, a boolean, or a datetime
(datetimes are opaque here; only their dtype matters). -/
inductive Cell where
  | num : ℚ → Cell
  | str : String → Cell
  | boolean : Bool → Cell
  | datetime : ℕ → Cell
deriving DecidableEq, Repr

/-- The pandas column dtypes that occur in the script's tables. -/
inductive Dtype where
  | int64 | float64 | boolDtype | objectDtype | datetime64
deriving DecidableEq, Repr

/-- pandas `is_numeric_dtype`: true for the numpy number classes and for
`np.bool_` (pandas counts booleans as numeric). -/
def is_numeric_dtype : Dtype → Bool
  | .int64 => true
  | .float64 => true
  | .boolDtype => true
  | .objectDtype => false
  | .datetime64 => false

/-- pandas `is_object_dtype`. -/
def is_object_dtype : Dtype → Bool
  | .objectDtype => true
  | _ => false

/-- A pandas DataFrame: column names, one dtype per column, and rows. -/
structure DataFrame where
  cols : List String
  dtypes : List Dtype
  rows : List (List Cell)
deriving DecidableEq, Repr

/-- Position of a column name. -/
def colIdx? (df : DataFrame) (c : String) : Option ℕ :=
  df.cols.findIdx? (fun n => n = c)

/-- `df[c]` as a list of cells; `none` models the KeyError on a missing
column. -/
def getCol? (df : DataFrame) (c : String) : Option (List Cell) :=
  (colIdx? df c).map (fun i => df.rows.map (fun r => r.getD i (Cell.str "")))

/-- dtype of a named column. -/
def dtypeOf? (df : DataFrame) (c : String) : Option Dtype :=
  (colIdx? df c).bind (fun i => df.dtypes.get? i)

/-- Numeric view of a cell (booleans coerce to 0/1 as in numpy). -/
def cellToQ : Cell → ℚ
  | .num q => q
  | .str _ => 0
  | .boolean b => if b then 1 else 0
  | .datetime n => (n : ℚ)

/-- Python `str()` of a cell, as used by `.astype(str)`. -/
def cellToStr : Cell → String
  | .num q => toString q
  | .str s => s
  | .boolean b => toString b
  | .datetime n => toString n

/-- Numeric values of a column. -/
def colQ (df : DataFrame) (c : String) : List ℚ :=
  ((getCol? df c).getD []).map cellToQ

/-- String values of a column (`df[col].astype(str)`). -/
def strCol (df : DataFrame) (c : String) : List String :=
  ((getCol? df c).getD []).map cellToStr

/-- `ndarray.max()` over a nonnegative-integer array (0 on empty input,
which never occurs in the script: `np.histogram(..., bins=50)` always
returns 50 bins). -/
def natMax : List ℕ → ℕ
  | [] => 0
  | x :: xs => max x (natMax xs)

/-- Minimum of a list of rationals (`min(series)` / the low end of
`np.histogram`'s range); 0 on empty input. -/
def listMin : List ℚ → ℚ
  | [] => 0
  | v :: vs => vs.foldl min v

/-- Maximum of a list of rationals; 0 on empty input. -/
def listMax : List ℚ → ℚ
  | [] => 0
  | v :: vs => vs.foldl max v

/-- Membership test of one `np.histogram` bin: half-open `[lo, hi)`,
except the last bin which is closed `[lo, hi]`. -/
def binPred (lo hi : ℚ) (isLast : Bool) (v : ℚ) : Bool :=
  decide (lo ≤ v) && (if isLast then decide (v ≤ hi) else decide (v < hi))

/-- Per-bin counts of `np.histogram` for a given monotone list of bin
edges: `k+1` edges give `k` counts. -/
def histCounts (vals : List ℚ) : List ℚ → List ℕ
  | [] => []
  | [_] => []
  | lo :: hi :: rest =>
      vals.countP (binPred lo hi rest.isEmpty) :: histCounts vals (hi :: rest)

/-- The bin range `np.histogram` auto-detects from the data: `(min, max)`,
widened to `(v - 0.5, v + 0.5)` for constant data and defaulting to
`(0, 1)` for empty data. -/
def histRange (vals : List ℚ) : ℚ × ℚ :=
  match vals with
  | [] => (0, 1)
  | _ =>
      let lo := listMin vals
      let hi := listMax vals
      if lo = hi then (lo - 1/2, hi + 1/2) else (lo, hi)

/-- `np.linspace lo hi (bins+1)`: the equally spaced bin edges. -/
def linEdges (lo hi : ℚ) (bins : ℕ) : List ℚ :=
  (List.range (bins + 1)).map (fun (i : ℕ) => lo + (i : ℚ) * ((hi - lo) / (bins : ℚ)))

/-- `np.histogram(vals, bins=n)`: counts and the auto-computed edges. -/
def npHistogram (vals : List ℚ) (bins : ℕ) : List ℕ × List ℚ :=
  let r := histRange vals
  let edges := linEdges r.1 r.2 bins
  (histCounts vals edges, edges)

/-- `np.histogram(vals, bins=edges)` with explicit edges: counts, and the
same edges handed back. -/
def npHistogramBins (vals : List ℚ) (edges : List ℚ) : List ℕ × List ℚ :=
  (histCounts vals edges, edges)

/-- The ColumnDataSource + figure data built by `draw_hist`: bin edges
(`left`/`right`), counts over all rows (`all`), counts over the selected
rows (`selected`), and the figure's fixed y range `(0, 1.1 * all.max())`. -/
structure HistSpec where
  left : List ℚ
  right : List ℚ
  all : List ℕ
  selected : List ℕ
  y_range : ℚ × ℚ
deriving DecidableEq, Repr

/-- `draw_hist(df, col, points_selected)` (source lines 200-230): the rows
for the selected points (an empty frame when the selection is empty, else
`df.iloc[points_selected]`), a 50-bin histogram of the whole column fixing
the edges, and a second histogram of only the selected values reusing
exactly those edges. -/
def draw_hist (df : DataFrame) (col : String) (points_selected : List ℕ) :
    HistSpec :=
  let vals := colQ df col
  let svals := if points_selected.isEmpty then []
    else points_selected.map (fun i => vals.getD i 0)
  let te := npHistogram vals 50
  let ts := npHistogramBins svals te.2
  { left := te.2.dropLast
    right := te.2.drop 1
    all := te.1
    selected := ts.1
    y_range := (0, (11/10 : ℚ) * (natMax te.1 : ℚ)) }

/-- One entry in the count lists built by `value_counts`:
`distinct value ↦ multiplicity`, in first-appearance order. -/
def countOccs (l : List Cell) : List (Cell × ℕ) :=
  l.eraseDups.map (fun v => (v, l.count v))

/-- Stable insertion (descending by count) used to model the
`sort_values(ascending=False)` step of `value_counts`. When counts tie the
earlier element stays first. -/
def insertDesc {α : Type} (x : α × ℕ) : List (α × ℕ) → List (α × ℕ)
  | [] => [x]
  | y :: ys => if y.2 ≤ x.2 then x :: y :: ys else y :: insertDesc x ys

/-- Stable sort, descending by count. -/
def sortByCountDesc {α : Type} (l : List (α × ℕ)) : List (α × ℕ) :=
  l.foldr insertDesc []

/-- `Series.value_counts()`: distinct values with multiplicities, sorted by
count descending. -/
def valueCounts (l : List Cell) : List (Cell × ℕ) :=
  sortByCountDesc (countOccs l)

/-- `DataFrame.value_counts()`: counts of distinct whole rows; the result
is indexed by a MultiIndex whose tuples are the rows. -/
def rowValueCounts (rows : List (List Cell)) : List (List Cell × ℕ) :=
  sortByCountDesc (rows.eraseDups.map (fun r => (r, rows.count r)))

/-- A Python value that can land in the `count_s` list of `draw_bar_chart`:
`dis_s[c]` is a plain integer only for a flat index; partial indexing of a
MultiIndexed Series with a scalar returns a sub-Series. -/
inductive PyVal where
  | int : ℕ → PyVal
  | series : List (List Cell × ℕ) → PyVal
deriving DecidableEq, Repr

/-- Python exceptions raised by the script. -/
inductive PyError where
  | keyError : String → PyError
deriving DecidableEq, Repr

/-- Hex digit character.  -/
def hexDigit (n : ℕ) : Char :=
  if n < 10 then Char.ofNat (48 + n) else Char.ofNat (87 + n)

/-- Two-digit lowercase hex rendering of a byte. -/
def byteHex (n : ℕ) : String :=
  String.mk [hexDigit (n / 16 % 16), hexDigit (n % 16)]

/-- Bokeh's `Turbo256` palette: a tuple of 256 colors, each a 7-character
string of the form `"#rrggbb"`.  The concrete hex digits of the entries are
irrelevant to every property proved below (only the tuple structure — that
indexing it with an integer yields a single 7-character color string —
matters), so the entries are rendered schematically here. -/
def Turbo256 : List String :=
  (List.range 256).map (fun i => "#" ++ byteHex i ++ byteHex i ++ byteHex i)

/-- The value bound to `palette` in the categorical branch of
`create_cmap`: a Python list of color strings when `len(l) == 2`, and a
single color string (one element of the `Turbo256` tuple) otherwise. -/
inductive PyPalette where
  | strs : List String → PyPalette
  | single : String → PyPalette
deriving DecidableEq, Repr

/-- The `factor_cmap(col, palette=…, factors=…)` transform. -/
structure FactorCmapSpec where
  field : String
  palette : PyPalette
  factors : List String
deriving DecidableEq, Repr

/-- The mapper returned by `create_cmap`. -/
inductive CmapMapper where
  | factor : FactorCmapSpec → CmapMapper
  | logMap : String → ℚ → ℚ → CmapMapper
  | linearMap : String → ℚ → ℚ → CmapMapper
deriving DecidableEq, Repr

/-- Lexicographic strict order on character lists by code point — the
order numpy sorts string arrays in. -/
def strLtChars : List Char → List Char → Bool
  | [], [] => false
  | [], _ :: _ => true
  | _ :: _, [] => false
  | a :: as, b :: bs =>
      if a.toNat < b.toNat then true
      else if b.toNat < a.toNat then false
      else strLtChars as bs

/-- Lexicographic `≤` on strings by code point. -/
def strLe (a b : String) : Bool :=
  ! strLtChars b.data a.data

/-- Insertion step of a string insertion sort (lexicographic `≤`). -/
def insertSorted (x : String) : List String → List String
  | [] => [x]
  | y :: ys => if strLe x y then x :: y :: ys else y :: insertSorted x ys

/-- Lexicographic insertion sort on strings. -/
def sortStrings (l : List String) : List String :=
  l.foldr insertSorted []

/-- `np.unique`: the distinct values, in sorted order. -/
def npUnique (l : List String) : List String :=
  (sortStrings l).dedup

/-- Iterating a Python string yields its characters; `zip(l, s)` for a
string `s` therefore pairs `l` with one-character strings. -/
def pyStrChars (s : String) : List String :=
  s.toList.map (fun c => String.mk [c])

/-- `dict(zip(l, palette))` from `create_cmap`: pairs of category and
"color", where a single-string palette contributes its characters. -/
def pyZipPalette (l : List String) (p : PyPalette) : List (String × String) :=
  match p with
  | .strs cs => l.zip cs
  | .single s => l.zip (pyStrChars s)

/-- `create_cmap(df, col)` (source lines 104-141).  Categorical (object)
columns: `l = np.unique(df[col].astype(str))`; a two-element black/white
palette when there are exactly two categories, otherwise `Turbo256[len(l)]`
— which indexes the 256-tuple and yields a single color string; the mapper
is `factor_cmap` over `l` and `cat_palette = dict(zip(l, palette))`.
Numeric columns: a log color map when `min(df[col]) >= 0`, else a linear
one, and `cat_palette = None`.  Any other dtype assigns neither `mapper`
nor `cat_palette`, so the `return` raises UnboundLocalError — modelled as
`none`. -/
def create_cmap (df : DataFrame) (col : String) :
    Option (CmapMapper × Option (List (String × String))) :=
  match dtypeOf? df col with
  | none => none
  | some dt =>
    if is_object_dtype dt then
      let l := npUnique (strCol df col)
      let palette : PyPalette :=
        if l.length = 2 then .strs ["#000000", "#FFFFFF"]
        else .single (Turbo256.getD l.length "")
      some (.factor ⟨col, palette, l⟩, some (pyZipPalette l palette))
    else if is_numeric_dtype dt then
      let vals := colQ df col
      let m := if 0 ≤ listMin vals then CmapMapper.logMap col (listMin vals) (listMax vals)
        else CmapMapper.linearMap col (listMin vals) (listMax vals)
      some (m, none)
    else none

/-- The data `draw_bar_chart` feeds its ColumnDataSource: categories of the
full column (`dis.index.values`), their counts, the per-category counts of
the selected rows, and the bar colors looked up in `cat_palette`. -/
structure BarSpec where
  cat : List Cell
  count : List ℕ
  count_s : List PyVal
  cat_color : List String
deriving DecidableEq, Repr

/-- Scalar membership in a MultiIndex: pandas resolves `c in index` by
partial indexing, so it tests the first level only. -/
def multiIndexLevel0 (idx : List (List Cell × ℕ)) : List Cell :=
  idx.filterMap (fun rc => rc.1.head?)

/-- Partial indexing `dis_s[c]` of a MultiIndexed Series with a scalar:
the sub-Series of entries whose first level equals `c`, first level
dropped. -/
def multiIndexPartial (idx : List (List Cell × ℕ)) (c : Cell) :
    List (List Cell × ℕ) :=
  idx.filterMap (fun rc => if rc.1.head? = some c then some (rc.1.drop 1, rc.2) else none)

/-- `draw_bar_chart(df, col, points_selected)` (source lines 280-308):
`s = df.iloc[points_selected]` when the selection is nonempty;
`dis = df[col].value_counts()` but `dis_s = s.value_counts()` — the whole
frame, so `dis_s` counts distinct rows and is MultiIndexed; `count_s`
appends `dis_s[c] if c in dis_s.index else 0` per category; the bar colors
come from `create_cmap`'s `cat_palette` (a missing key raises KeyError). -/
def draw_bar_chart (df : DataFrame) (col : String) (points_selected : List ℕ) :
    Except PyError BarSpec :=
  let s : List (List Cell) :=
    if 0 < points_selected.length then points_selected.map (fun i => df.rows.getD i [])
    else []
  let dis := valueCounts ((getCol? df col).getD [])
  let dis_s := rowValueCounts s
  let cat := dis.map (fun p => p.1)
  let count := dis.map (fun p => p.2)
  let count_s : List PyVal := cat.map (fun c =>
    if (multiIndexLevel0 dis_s).contains c then .series (multiIndexPartial dis_s c)
    else .int 0)
  let cat_palette : List (String × String) :=
    match create_cmap df col with
    | some (_, some cp) => cp
    | _ => []
  let colors : List (Option String) :=
    cat.map (fun c => (cat_palette.find? (fun p => p.1 = cellToStr c)).map (fun p => p.2))
  if colors.contains none then .error (.keyError col)
  else .ok { cat := cat, count := count, count_s := count_s,
             cat_color := colors.reduceOption }

deriving instance DecidableEq for Except

/-- Result of `draw_subplot`: a histogram figure or a bar-chart figure. -/
inductive SubplotRes where
  | hist : HistSpec → SubplotRes
  | bar : Except PyError BarSpec → SubplotRes
deriving DecidableEq, Repr

/-- `draw_subplot(df, ft_selected, points_selected)` (source lines
386-393): `draw_hist` when `is_numeric_dtype(df[cs])`, `draw_bar_chart`
when `is_object_dtype(df[cs])`; for any other dtype no branch assigns
`sub_p` and `return sub_p` raises UnboundLocalError — modelled as `none`
(as is the KeyError for a column that does not exist; the theorems below
always supply an existing column). -/
def draw_subplot (df : DataFrame) (ft_selected : String)
    (points_selected : List ℕ) : Option SubplotRes :=
  match dtypeOf? df ft_selected with
  | none => none
  | some dt =>
    if is_numeric_dtype dt then some (.hist (draw_hist df ft_selected points_selected))
    else if is_object_dtype dt then some (.bar (draw_bar_chart df ft_selected points_selected))
    else none

/-- The numpy global random-number-generator state, threaded explicitly.
`np.random.seed(n)` replaces it; library calls with `random_state=None`
draw from it. -/
structure NpRng where
  state : ℕ
deriving DecidableEq, Repr

/-- `np.random.seed n`: resets the global RNG deterministically from `n`. -/
def npRandomSeed (n : ℕ) : NpRng :=
  ⟨n % 2 ^ 32⟩

/-- One PRNG step producing a draw below `bound`. -/
def nextNat (r : NpRng) (bound : ℕ) : ℕ × NpRng :=
  let s := (1103515245 * r.state + 12345) % 2 ^ 31
  (s % bound, ⟨s⟩)

/-- A row of the Projection: the two principal components. -/
def Point : Type := ℚ × ℚ

instance : DecidableEq Point := instDecidableEqProd

/-- Squared euclidean distance in the projected plane. -/
def sqDist (p q : Point) : ℚ :=
  (p.1 - q.1) ^ 2 + (p.2 - q.2) ^ 2

/-- Index of the nearest center (ties to the lowest index). -/
def nearestAux (p : Point) : List Point → ℕ → ℕ → ℚ → ℕ
  | [], _, best, _ => best
  | c :: cs, i, best, bestd =>
      if sqDist p c < bestd then nearestAux p cs (i + 1) i (sqDist p c)
      else nearestAux p cs (i + 1) best bestd

/-- Index of the center of `cs` nearest to `p`. -/
def nearestIdx (cs : List Point) (p : Point) : ℕ :=
  match cs with
  | [] => 0
  | c :: cs' => nearestAux p cs' 1 0 (sqDist p c)

/-- Cluster index assigned to every data point. -/
def assignIdx (cs : List Point) (X : List Point) : List ℕ :=
  X.map (nearestIdx cs)

/-- Mean of a list of points (`d` when the list is empty, i.e. an empty
cluster keeps its previous center). -/
def meanPoint (ps : List Point) (d : Point) : Point :=
  match ps with
  | [] => d
  | _ =>
      let sx := (ps.map (fun p => p.1)).foldl (· + ·) 0
      let sy := (ps.map (fun p => p.2)).foldl (· + ·) 0
      (sx / (ps.length : ℚ), sy / (ps.length : ℚ))

/-- One Lloyd update of the centers. -/
def updateCenters (cs : List Point) (X : List Point) : List Point :=
  (List.range cs.length).map (fun j =>
    meanPoint (X.filter (fun p => nearestIdx cs p = j)) (cs.getD j (0, 0)))

/-- Fixed-iteration Lloyd refinement. -/
def lloyd : ℕ → List Point → List Point → List Point
  | 0, cs, _ => cs
  | fuel + 1, cs, X => lloyd fuel (updateCenters cs X) X

/-- Draw `k` center-seeding indices below `n` from the RNG. -/
def pickIndices (r : NpRng) (n : ℕ) : ℕ → List ℕ × NpRng
  | 0 => ([], r)
  | k + 1 =>
      let ir := nextNat r n
      let rest := pickIndices ir.2 n k
      (ir.1 :: rest.1, rest.2)

/-- Decimal digit character. -/
def natToDigitChar (n : ℕ) : Char :=
  Char.ofNat (48 + n % 10)

/-- Decimal rendering of a natural number with explicit fuel. -/
def natToStrAux : ℕ → ℕ → String
  | 0, _ => ""
  | fuel + 1, n =>
      if n < 10 then String.mk [natToDigitChar n]
      else natToStrAux fuel (n / 10) ++ String.mk [natToDigitChar n]

/-- Python `str(int)`: the decimal rendering of a natural number (the
cluster labels are nonnegative indices). -/
def natToStr (n : ℕ) : String :=
  natToStrAux (n + 1) n

/-- Total within-cluster squared distance of centers `cs` on data `X`. -/
def inertia (cs : List Point) (X : List Point) : ℚ :=
  (X.map (fun p => sqDist p (cs.getD (nearestIdx cs p) (0, 0)))).foldl (· + ·) 0

/-- One seeded k-means attempt: centers initialised at randomly drawn data
points, then Lloyd iterations. -/
def kmeansRun (r : NpRng) (X : List Point) (k : ℕ) : List Point × NpRng :=
  let ini := pickIndices r X.length k
  let cs0 := ini.1.map (fun i => X.getD i (0, 0))
  (lloyd 10 cs0 X, ini.2)

/-- The error the clustering stage fails with when `n_clusters` is outside
`1 ≤ n_clusters ≤ n_samples` (sklearn validates both bounds and raises). -/
inductive ClusterError where
  | invalidClusterCount : ClusterError
deriving DecidableEq, Repr

/-- `MiniBatchKMeans(n_clusters=k, n_init=2).fit(X).labels_.astype(str)`:
validation of the cluster count against the sample count, then two seeded
initialisation attempts consuming the global RNG, keeping the run of lower
inertia; labels are the decimal strings of the assigned center indices.
The mini-batch subsampling is idealised to full-batch Lloyd steps — every
property proved below depends only on the validation, determinism and
output shape of this stage, not on which partition it produces. -/
def miniBatchKMeans (r : NpRng) (X : List Point) (n_clusters : ℕ) :
    Except ClusterError (List String) × NpRng :=
  if n_clusters = 0 ∨ X.length < n_clusters then (.error .invalidClusterCount, r)
  else
    let run1 := kmeansRun r X n_clusters
    let run2 := kmeansRun run1.2 X n_clusters
    let best := if inertia run2.1 X < inertia run1.1 X then run2.1 else run1.1
    (.ok ((assignIdx best X).map natToStr), run2.2)

/-- `clustering(df, n_clusters=2)` (source lines 82-99): selects the two
principal components, calls `np.random.seed(0)` — discarding whatever the
global RNG state was — and fits `MiniBatchKMeans(n_clusters, n_init=2)`,
whose labels become the string-typed `Cluster` column. -/
def clustering (rng : NpRng) (X_pca : List Point) (n_clusters : ℕ := 2) :
    Except ClusterError (List String) × NpRng :=
  let r0 := npRandomSeed 0
  miniBatchKMeans r0 X_pca n_clusters

/-- The script's mutable globals after startup: the enriched dataframe
(with its `label` column), the two selected features, the lasso selection,
and the `label` column of the scatter plot's ColumnDataSource
(`p_pca_source.data['label']`). -/
structure Session where
  df : DataFrame
  pca_ft_selected : String
  sub_ft_selected : String
  points_selected : List ℕ
  source_label : List Cell
deriving DecidableEq, Repr

/-- Overwrite an existing column or append a new one. -/
def setCol (df : DataFrame) (name : String) (dt : Dtype) (vals : List Cell) :
    DataFrame :=
  match colIdx? df name with
  | some i =>
      { df with dtypes := df.dtypes.set i dt
                rows := df.rows.zipWith (fun r v => r.set i v) vals }
  | none =>
      { cols := df.cols ++ [name]
        dtypes := df.dtypes ++ [dt]
        rows := df.rows.zipWith (fun r v => r ++ [v]) vals }

/-- Startup initialisation (source lines 405-421), taking the dataframe as
it stands after `pca` and `clustering`: the initial feature selections, an
empty lasso selection, and `df['label'] = pca_ft_selected` — a scalar
assignment, broadcasting the string `'Market Cap'` to every row — before
the ColumnDataSource copies the frame. -/
def init_session (df : DataFrame) : Session :=
  let labelVals := List.replicate df.rows.length (Cell.str "Market Cap")
  { df := setCol df "label" .objectDtype labelVals
    pca_ft_selected := "Market Cap"
    sub_ft_selected := "Mean Recommendation"
    points_selected := []
    source_label := labelVals }

/-- `update_pca_col(attrname, old, new)` (source lines 475-481): the
global `pca_ft_selected` is assigned first; only then does
`p_pca_source.data['label'] = df[new]` look the column up, raising
KeyError for an unknown name — after the global has already changed.  The
pair returned is the state of the globals when the handler finishes or the
exception escapes, together with the error if one was raised.  (The
subsequent `plot_pca` re-render is presentation and not modelled.) -/
def update_pca_col (s : Session) (new : String) : Session × Option PyError :=
  let s1 := { s with pca_ft_selected := new }
  match getCol? s1.df new with
  | none => (s1, some (.keyError new))
  | some vals => ({ s1 with source_label := vals }, none)

/-- `update_sub_col(attrname, old, new)` (source lines 488-491): assigns
the global `sub_ft_selected` and redraws the subplot with the current
`points_selected`; the selection itself is never touched. -/
def update_sub_col (s : Session) (new : String) : Session × Option SubplotRes :=
  let s1 := { s with sub_ft_selected := new }
  (s1, draw_subplot s1.df s1.sub_ft_selected s1.points_selected)

/-- `lasso_update(attr, old, new)` (source lines 503-507): replaces
`points_selected` and redraws the subplot for the current feature. -/
def lasso_update (s : Session) (indices : List ℕ) : Session × Option SubplotRes :=
  let s1 := { s with points_selected := indices }
  (s1, draw_subplot s1.df s1.sub_ft_selected s1.points_selected)

/- ## Supporting lemmas -/

lemma histCounts_length (vals : List ℚ) :
    ∀ edges : List ℚ, (histCounts vals edges).length = edges.length - 1 := by
  intro edges
  induction edges with
  | nil => simp [histCounts]
  | cons lo rest ih =>
    cases rest with
    | nil => simp [histCounts]
    | cons hi rest' =>
      simp only [histCounts, List.length_cons] at ih ⊢
      omega

lemma histCounts_nil_vals :
    ∀ edges : List ℚ, histCounts [] edges = List.replicate (edges.length - 1) 0 := by
  intro edges
  induction edges with
  | nil => simp [histCounts]
  | cons lo rest ih =>
    cases rest with
    | nil => simp [histCounts]
    | cons hi rest' =>
      simp only [histCounts, List.countP_nil, List.length_cons] at ih ⊢
      rw [ih]
      rfl

lemma linEdges_length (lo hi : ℚ) (bins : ℕ) :
    (linEdges lo hi bins).length = bins + 1 := by
  rw [linEdges, List.length_map, List.length_range]

lemma npHistogram_fst_length (vals : List ℚ) (bins : ℕ) :
    ((npHistogram vals bins).1).length = bins := by
  simp [npHistogram, histCounts_length, linEdges_length]

lemma npHistogram_snd_length (vals : List ℚ) (bins : ℕ) :
    ((npHistogram vals bins).2).length = bins + 1 := by
  simp [npHistogram, linEdges_length]

lemma countP_eq_range {α : Type} (p : α → Bool) (d : α) :
    ∀ vals : List α,
      vals.countP p = (List.range vals.length).countP (fun i => p (vals.getD i d)) := by
  intro vals
  induction vals with
  | nil => simp
  | cons a l ih =>
    rw [List.countP_cons, List.length_cons, List.range_succ_eq_map,
      List.countP_cons, List.countP_map]
    simp only [List.getD_cons_zero, List.getD_cons_succ, Function.comp_def]
    rw [ih]

lemma countP_sel_le {α : Type} (d : α) (vals : List α) (sel : List ℕ)
    (hnd : sel.Nodup) (hlt : ∀ i ∈ sel, i < vals.length) (p : α → Bool) :
    (sel.map (fun i => vals.getD i d)).countP p ≤ vals.countP p := by
  rw [List.countP_map, countP_eq_range p d vals]
  have hsub : sel ⊆ List.range vals.length := fun i hi => List.mem_range.mpr (hlt i hi)
  have hsp : sel.Subperm (List.range vals.length) := hnd.subperm hsub
  obtain ⟨l, hperm, hsl⟩ := hsp
  calc sel.countP (p ∘ fun i => vals.getD i d)
      = l.countP (p ∘ fun i => vals.getD i d) := (hperm.countP_eq _).symm
    _ ≤ (List.range vals.length).countP (p ∘ fun i => vals.getD i d) := hsl.countP_le _
    _ = (List.range vals.length).countP (fun i => p (vals.getD i d)) := rfl

lemma histCounts_getD_mono (s vals : List ℚ)
    (h : ∀ p : ℚ → Bool, s.countP p ≤ vals.countP p) :
    ∀ (edges : List ℚ) (j : ℕ),
      (histCounts s edges).getD j 0 ≤ (histCounts vals edges).getD j 0 := by
  intro edges
  induction edges with
  | nil => intro j; simp [histCounts]
  | cons lo rest ih =>
    cases rest with
    | nil => intro j; simp [histCounts]
    | cons hi rest' =>
      intro j
      cases j with
      | zero => simpa [histCounts] using h (binPred lo hi rest'.isEmpty)
      | succ j' => simpa [histCounts] using ih j'

lemma clustering_ok_of_valid (r : NpRng) (X : List Point) (n : ℕ)
    (h : ¬ (n = 0 ∨ X.length < n)) :
    ∃ ls, (clustering r X n).1 = .ok ls ∧ ls.length = X.length := by
  unfold clustering miniBatchKMeans
  rw [if_neg h]
  exact ⟨_, rfl, by simp [assignIdx]⟩

lemma getD_le_natMax : ∀ (l : List ℕ) (j : ℕ), l.getD j 0 ≤ natMax l := by
  intro l
  induction l with
  | nil => intro j; simp [natMax]
  | cons x xs ih =>
    intro j
    cases j with
    | zero => simp only [List.getD_cons_zero, natMax]; exact le_max_left _ _
    | succ j' =>
      simp only [List.getD_cons_succ, natMax]
      exact le_trans (ih j') (le_max_right _ _)

/- ## Concrete tables used by witnesses and counterexamples -/

/-- A two-column enriched table with a numeric `Market Cap` column and a
categorical `Mean Recommendation` column. -/
def dfMC : DataFrame :=
  { cols := ["Market Cap", "Mean Recommendation"]
    dtypes := [.float64, .objectDtype]
    rows := [[.num 100, .str "Buy"], [.num 200, .str "Sell"]] }

/-- A two-column categorical table: first column `A`, second column `B`
(every row has `B = "u"`). -/
def dfAB : DataFrame :=
  { cols := ["A", "B"]
    dtypes := [.objectDtype, .objectDtype]
    rows := [[.str "x", .str "u"], [.str "y", .str "u"]] }

/-- The table of the startup scenario for the label column. -/
def dfLbl : DataFrame :=
  { cols := ["Market Cap", "Mean Recommendation"]
    dtypes := [.float64, .objectDtype]
    rows := [[.num 100, .str "Buy"], [.num 200, .str "Sell"]] }

/-- A one-column numeric table with values 1, 2, 3, 100. -/
def dfNum4 : DataFrame :=
  { cols := ["v"]
    dtypes := [.float64]
    rows := [[.num 1], [.num 2], [.num 3], [.num 100]] }

/-- A second one-column numeric table. -/
def dfNum5 : DataFrame :=
  { cols := ["w"]
    dtypes := [.float64]
    rows := [[.num 0], [.num 5], [.num 5], [.num 9]] }

/-- A one-column categorical table with eight distinct values. -/
def dfCat8 : DataFrame :=
  { cols := ["cat8"]
    dtypes := [.objectDtype]
    rows := [[.str "a"], [.str "b"], [.str "c"], [.str "d"],
             [.str "e"], [.str "f"], [.str "g"], [.str "h"]] }

/-- A one-column boolean table. -/
def dfBoolCol : DataFrame :=
  { cols := ["flag"]
    dtypes := [.boolDtype]
    rows := [[.boolean true], [.boolean false]] }

/-- A one-column datetime table. -/
def dfDtCol : DataFrame :=
  { cols := ["when"]
    dtypes := [.datetime64]
    rows := [[.datetime 0]] }

/- ## Claim theorems -/

/-- Claim C1, counterexample.  The claim says an unknown feature name
leaves the Selection State unchanged with `color_feature` at its prior
value; but `update_pca_col` assigns the global `pca_ft_selected` before
the failing `df[new]` lookup, so after `SetColorFeature("NoSuchColumn")`
an error has been raised and yet `color_feature` has changed to
`"NoSuchColumn"`. -/
theorem update_pca_col_mutates_before_error :
    (update_pca_col (init_session dfMC) "NoSuchColumn").2
      = some (.keyError "NoSuchColumn")
    ∧ (init_session dfMC).pca_ft_selected = "Market Cap"
    ∧ ¬ ((update_pca_col (init_session dfMC) "NoSuchColumn").1.pca_ft_selected
          = (init_session dfMC).pca_ft_selected) := by
  decide

/-- Claim C1, amended.  For every feature name that is not a column of the
enriched table, issuing SetColorFeature with that name raises an error
(the KeyError of the failing column lookup, not a dedicated
UnknownColumnError) and leaves the `label` column and the rest of the
state untouched — but `color_feature` has already been updated to the
invalid name before the error, so the update is partial rather than
absent. -/
theorem update_pca_col_unknown_column (s : Session) (new : String)
    (h : getCol? s.df new = none) :
    update_pca_col s new = ({ s with pca_ft_selected := new }, some (.keyError new)) := by
  unfold update_pca_col
  simp [h]

/-- Claim C1, witness for `update_pca_col_unknown_column`. -/
theorem update_pca_col_unknown_column_witness :
    getCol? (init_session dfMC).df "NoSuchColumn" = none
    ∧ update_pca_col (init_session dfMC) "NoSuchColumn"
        = ({ init_session dfMC with pca_ft_selected := "NoSuchColumn" },
           some (.keyError "NoSuchColumn")) :=
  ⟨by decide, update_pca_col_unknown_column (init_session dfMC) "NoSuchColumn" (by decide)⟩

/-- Claim C2, code bug.  For the table `dfAB` (columns `A`, `B`; both
selected-or-not rows have `B = "u"`) and selection `[0]`, exactly one
selected row has category `"u"` in column `B`, so the claimed selected
count is 1; but `draw_bar_chart` computes `dis_s = s.value_counts()` over
the whole frame — count of distinct *rows*, MultiIndexed — so the scalar
membership test `c in dis_s.index` inspects the first index level (values
of column `A`), misses `"u"`, and the code emits a selected count of 0. -/
theorem draw_bar_chart_selected_count_bug :
    draw_bar_chart dfAB "B" [0]
      = .ok { cat := [.str "u"], count := [2], count_s := [.int 0], cat_color := ["#"] }
    ∧ ([0].map (fun i => dfAB.rows.getD i [])).countP
        (fun r => decide (r.getD 1 (Cell.str "") = Cell.str "u")) = 1 := by
  decide

/-- Claim C3.  `clustering` calls `np.random.seed(0)` before fitting, so
its result does not depend on the ambient numpy RNG state at all: two runs
on identical Projection data with identical `n_clusters` produce literally
identical per-row label assignments (the identity relabeling permutation). -/
theorem clustering_deterministic (r1 r2 : NpRng) (X : List Point) (n : ℕ) :
    (clustering r1 X n).1 = (clustering r2 X n).1 := rfl

/-- Claim C4, code bug.  Immediately after startup initialisation the
`label` column does not hold the values of the column named by
`color_feature`: `df['label'] = pca_ft_selected` broadcasts the feature
*name* `'Market Cap'` as a constant string to every row, instead of
copying the `Market Cap` column (the adjacent source comment says the
column "is a copy (of) the selected feature"). -/
theorem init_label_column_constant :
    (init_session dfLbl).pca_ft_selected = "Market Cap"
    ∧ getCol? (init_session dfLbl).df "label"
        = some [.str "Market Cap", .str "Market Cap"]
    ∧ getCol? (init_session dfLbl).df "Market Cap" = some [.num 100, .num 200]
    ∧ ¬ (getCol? (init_session dfLbl).df "label"
          = getCol? (init_session dfLbl).df "Market Cap") := by
  decide

/-- Claim C5.  `draw_hist` computes a 50-bin histogram over all rows of the
feature, fixing the bin edges; the histogram of the selected rows is then
computed with exactly those edges (and `np.histogram` hands the same edges
back), so both histograms of one call share their bin edges; an empty
selection yields fifty zero `selected` counts — not an error — with the
`all` counts unchanged. -/
theorem draw_hist_shared_edges (df : DataFrame) (col : String) (sel : List ℕ)
    (hval : ∀ i ∈ sel, i < (colQ df col).length) :
    (npHistogramBins (if sel.isEmpty then [] else sel.map (fun i => (colQ df col).getD i 0))
        (npHistogram (colQ df col) 50).2).2 = (npHistogram (colQ df col) 50).2
    ∧ (draw_hist df col sel).left = (npHistogram (colQ df col) 50).2.dropLast
    ∧ (draw_hist df col sel).right = (npHistogram (colQ df col) 50).2.drop 1
    ∧ (draw_hist df col sel).all = (npHistogram (colQ df col) 50).1
    ∧ (draw_hist df col sel).selected
        = (npHistogramBins
            (if sel.isEmpty then [] else sel.map (fun i => (colQ df col).getD i 0))
            (npHistogram (colQ df col) 50).2).1
    ∧ (draw_hist df col sel).all.length = 50
    ∧ (draw_hist df col sel).selected.length = 50
    ∧ (sel = [] → (draw_hist df col sel).selected = List.replicate 50 0) := by
  refine ⟨rfl, rfl, rfl, rfl, rfl, ?_, ?_, ?_⟩
  · show ((npHistogram (colQ df col) 50).1).length = 50
    exact npHistogram_fst_length _ _
  · show ((npHistogramBins _ (npHistogram (colQ df col) 50).2).1).length = 50
    rw [npHistogramBins]
    rw [histCounts_length, npHistogram_snd_length]
  · intro hsel
    subst hsel
    show (npHistogramBins (if ([] : List ℕ).isEmpty then [] else _)
        (npHistogram (colQ df col) 50).2).1 = List.replicate 50 0
    rw [npHistogramBins]
    simp only [List.isEmpty_nil, if_true]
    rw [histCounts_nil_vals, npHistogram_snd_length]

/-- Claim C5, witness for `draw_hist_shared_edges`. -/
theorem draw_hist_shared_edges_witness :
    (∀ i ∈ [0], i < (colQ dfNum4 "v").length)
    ∧ ((npHistogramBins
          (if ([0] : List ℕ).isEmpty then []
           else [0].map (fun i => (colQ dfNum4 "v").getD i 0))
          (npHistogram (colQ dfNum4 "v") 50).2).2 = (npHistogram (colQ dfNum4 "v") 50).2
      ∧ (draw_hist dfNum4 "v" [0]).left = (npHistogram (colQ dfNum4 "v") 50).2.dropLast
      ∧ (draw_hist dfNum4 "v" [0]).right = (npHistogram (colQ dfNum4 "v") 50).2.drop 1
      ∧ (draw_hist dfNum4 "v" [0]).all = (npHistogram (colQ dfNum4 "v") 50).1
      ∧ (draw_hist dfNum4 "v" [0]).selected
          = (npHistogramBins
              (if ([0] : List ℕ).isEmpty then []
               else [0].map (fun i => (colQ dfNum4 "v").getD i 0))
              (npHistogram (colQ dfNum4 "v") 50).2).1
      ∧ (draw_hist dfNum4 "v" [0]).all.length = 50
      ∧ (draw_hist dfNum4 "v" [0]).selected.length = 50
      ∧ (([0] : List ℕ) = [] → (draw_hist dfNum4 "v" [0]).selected = List.replicate 50 0)) :=
  ⟨by decide, draw_hist_shared_edges dfNum4 "v" [0] (by decide)⟩

/-- Claim C6.  The Cluster Assigner fails with the invalid-cluster-count
error (raised by the fitted estimator's validation; the script itself adds
no check) exactly when `n_clusters` is outside `1 ≤ n_clusters ≤` row
count of the Projection, and otherwise assigns one label per row. -/
theorem clustering_cluster_count_range (r : NpRng) (X : List Point) (n : ℕ) :
    ((clustering r X n).1 = .error .invalidClusterCount ↔ ¬ (1 ≤ n ∧ n ≤ X.length))
    ∧ (1 ≤ n → n ≤ X.length →
        ∃ ls, (clustering r X n).1 = .ok ls ∧ ls.length = X.length) := by
  by_cases h : n = 0 ∨ X.length < n
  · constructor
    · constructor
      · intro _
        omega
      · intro _
        simp [clustering, miniBatchKMeans, h]
    · intro h1 h2
      exfalso
      omega
  · constructor
    · constructor
      · intro herr
        exfalso
        simp [clustering, miniBatchKMeans, h] at herr
      · intro hn
        exfalso
        omega
    · intro h1 h2
      exact clustering_ok_of_valid r X n h

/-- Claim C6, witness for `clustering_cluster_count_range`: with two
projected rows, `n_clusters = 5` is rejected, and `n_clusters = 2`
produces the two labels `"1"` and `"0"`. -/
theorem clustering_cluster_count_range_witness :
    (clustering ⟨0⟩ [((0 : ℚ), (0 : ℚ)), ((10 : ℚ), (10 : ℚ))] 5).1
      = .error .invalidClusterCount
    ∧ ∃ ls, (clustering ⟨0⟩ [((0 : ℚ), (0 : ℚ)), ((10 : ℚ), (10 : ℚ))] 2).1 = .ok ls
        ∧ ls.length = ([((0 : ℚ), (0 : ℚ)), ((10 : ℚ), (10 : ℚ))] : List Point).length :=
  ⟨(clustering_cluster_count_range ⟨0⟩ _ 5).1.mpr (by decide),
   (clustering_cluster_count_range ⟨0⟩ [((0 : ℚ), (0 : ℚ)), ((10 : ℚ), (10 : ℚ))] 2).2
     (by decide) (by decide)⟩

/-- Claim C7.  `update_sub_col` only replaces `sub_ft_selected`:
`points_selected` is preserved, and the subplot rendered by the handler is
exactly the subplot of the new feature with the pre-transition selection —
a feature switch never resets the lasso selection. -/
theorem update_sub_col_preserves_selection (s : Session) (new : String) :
    (update_sub_col s new).1.points_selected = s.points_selected
    ∧ (update_sub_col s new).2 = draw_subplot s.df new s.points_selected :=
  ⟨rfl, rfl⟩

/-- Claim C8, code bug.  For a categorical column with eight distinct
values the code does not assign one color per category: `Turbo256[len(l)]`
indexes the 256-tuple, so `palette` is the *single* color string
`Turbo256[8]`, and `dict(zip(l, palette))` pairs the eight categories with
the seven characters of that string — seven one-character entries, one
category dropped — instead of eight distinct colors. -/
theorem create_cmap_single_color_bug :
    (npUnique (strCol dfCat8 "cat8")).length = 8
    ∧ create_cmap dfCat8 "cat8"
        = some (.factor ⟨"cat8", .single (Turbo256.getD 8 ""), npUnique (strCol dfCat8 "cat8")⟩,
            some ((npUnique (strCol dfCat8 "cat8")).zip (pyStrChars (Turbo256.getD 8 ""))))
    ∧ ((npUnique (strCol dfCat8 "cat8")).zip (pyStrChars (Turbo256.getD 8 ""))).length = 7
    ∧ ((npUnique (strCol dfCat8 "cat8")).zip (pyStrChars (Turbo256.getD 8 ""))).all
        (fun pr => pr.2.length = 1) = true := by
  decide

/-- Claim C9, counterexample.  The claim names boolean dtype as a case in
which no branch of `draw_subplot` assigns the result; but pandas
`is_numeric_dtype` counts booleans as numeric, so a boolean column takes
the histogram branch and a subplot is returned. -/
theorem draw_subplot_bool_returns :
    dtypeOf? dfBoolCol "flag" = some .boolDtype
    ∧ is_numeric_dtype .boolDtype = true
    ∧ (draw_subplot dfBoolCol "flag" []).isSome = true := by
  decide

/-- Claim C9, amended.  `draw_subplot` returns a subplot exactly when the
selected feature's dtype satisfies pandas `is_numeric_dtype` (which
includes boolean) or `is_object_dtype`; for any other dtype (e.g.
datetime) no branch assigns `sub_p` and the `return` raises
UnboundLocalError instead of returning or raising a declared error. -/
theorem draw_subplot_dtype_branches (df : DataFrame) (col : String)
    (sel : List ℕ) (dt : Dtype) (h : dtypeOf? df col = some dt) :
    (draw_subplot df col sel).isSome = (is_numeric_dtype dt || is_object_dtype dt) := by
  unfold draw_subplot
  rw [h]
  by_cases h1 : is_numeric_dtype dt <;> by_cases h2 : is_object_dtype dt <;>
    simp [h1, h2]

/-- Claim C9, witness for `draw_subplot_dtype_branches`: a datetime column
returns no subplot. -/
theorem draw_subplot_dtype_branches_witness :
    dtypeOf? dfDtCol "when" = some .datetime64
    ∧ (draw_subplot dfDtCol "when" []).isSome
        = (is_numeric_dtype .datetime64 || is_object_dtype .datetime64) :=
  ⟨by decide, draw_subplot_dtype_branches dfDtCol "when" [] .datetime64 (by decide)⟩

/-- Claim C10.  For a duplicate-free selection of valid row indices, every
histogram bin's `selected` count is at most that bin's `all` count, and in
particular never exceeds the figure's fixed upper y-range
`1.1 * max(all)`. -/
theorem draw_hist_selected_le_all (df : DataFrame) (col : String) (sel : List ℕ)
    (hnd : sel.Nodup) (hval : ∀ i ∈ sel, i < (colQ df col).length) (j : ℕ) :
    (draw_hist df col sel).selected.getD j 0 ≤ (draw_hist df col sel).all.getD j 0
    ∧ ((draw_hist df col sel).selected.getD j 0 : ℚ) ≤ (draw_hist df col sel).y_range.2 := by
  have hcount : ∀ p : ℚ → Bool,
      (if sel.isEmpty then [] else sel.map (fun i => (colQ df col).getD i 0)).countP p
        ≤ (colQ df col).countP p := by
    intro p
    by_cases he : sel.isEmpty
    · simp [he]
    · simp only [he, if_false]
      exact countP_sel_le 0 (colQ df col) sel hnd hval p
  have hmono := histCounts_getD_mono _ _ hcount ((npHistogram (colQ df col) 50).2) j
  have hsel : (draw_hist df col sel).selected
      = histCounts (if sel.isEmpty then [] else sel.map (fun i => (colQ df col).getD i 0))
          ((npHistogram (colQ df col) 50).2) := rfl
  have hall : (draw_hist df col sel).all
      = histCounts (colQ df col) ((npHistogram (colQ df col) 50).2) := rfl
  constructor
  · rw [hsel, hall]
    exact hmono
  · have h1 : ((draw_hist df col sel).selected.getD j 0 : ℚ)
        ≤ ((draw_hist df col sel).all.getD j 0 : ℚ) := by
      exact_mod_cast (by rw [hsel, hall]; exact hmono :
        (draw_hist df col sel).selected.getD j 0 ≤ (draw_hist df col sel).all.getD j 0)
    have h2 : ((draw_hist df col sel).all.getD j 0 : ℚ)
        ≤ (natMax (draw_hist df col sel).all : ℚ) := by
      exact_mod_cast getD_le_natMax _ j
    have h3 : (natMax (draw_hist df col sel).all : ℚ)
        ≤ (11/10 : ℚ) * (natMax (draw_hist df col sel).all : ℚ) := by
      have hnn : (0 : ℚ) ≤ (natMax (draw_hist df col sel).all : ℚ) := Nat.cast_nonneg _
      nlinarith
    have hy : (draw_hist df col sel).y_range.2
        = (11/10 : ℚ) * (natMax (draw_hist df col sel).all : ℚ) := rfl
    rw [hy]
    linarith

/-- Claim C10, witness for `draw_hist_selected_le_all`. -/
theorem draw_hist_selected_le_all_witness :
    (([0, 2] : List ℕ).Nodup ∧ ∀ i ∈ ([0, 2] : List ℕ), i < (colQ dfNum5 "w").length)
    ∧ ((draw_hist dfNum5 "w" [0, 2]).selected.getD 0 0
          ≤ (draw_hist dfNum5 "w" [0, 2]).all.getD 0 0
        ∧ ((draw_hist dfNum5 "w" [0, 2]).selected.getD 0 0 : ℚ)
            ≤ (draw_hist dfNum5 "w" [0, 2]).y_range.2) :=
  ⟨⟨by decide, by decide⟩,
   draw_hist_selected_le_all dfNum5 "w" [0, 2] (by decide) (by decide) 0⟩

end PcaApp
